import Mathlib

/-!
Verification of the mplhep plotting layer (src/mplhep/plot.py) against its
natural-language specification.

The source is shallowly embedded: Python floats are modelled as exact
rationals (ℚ), numpy arrays as lists, fallible code as `Except String`.
Line numbers in comments refer to src/src/mplhep/plot.py.

Functions that live in the repository's `utils` module (which is not part of
the provided sources: `Plottable`, `to_padded2d`, `stack`, ...) are modelled
from the specification; each such definition carries a doc comment starting
with `Modelled from the spec:`.
-/

namespace Mplhep

/-! ### Generic numpy-style helpers -/

/-- np.diff: consecutive differences, `x[1:] - x[:-1]`. -/
def np_diff (l : List ℚ) : List ℚ := List.zipWith (fun a b => a - b) l.tail l

/-- np.mean of a 1d array. -/
def np_mean (l : List ℚ) : ℚ := l.sum / (l.length : ℚ)

/-- In-place update of the last element (`arr[-1] = f arr[-1]`). -/
def np_modifyLast {α : Type} (f : α → α) : List α → List α
  | [] => []
  | [x] => [f x]
  | x :: y :: xs => x :: np_modifyLast f (y :: xs)

/-- np.tile for a 1d array: `np.tile(v, reps)` concatenates `reps` copies. -/
def np_tile_flat (v : List ℚ) (reps : ℕ) : List ℚ := (List.replicate reps v).flatten

/-- np.tile(m, 2) for a 2d array: each row is concatenated with itself. -/
def np_tile2 (m : List (List ℚ)) : List (List ℚ) := m.map (fun r => r ++ r)

/-- Row-major reshape of a flat array to shape (a, b): numpy raises ValueError
when the element count does not match. -/
def np_reshape2 (flat : List ℚ) (a b : ℕ) : Except String (List (List ℚ)) :=
  if flat.length ≠ a * b then Except.error ("ValueError: cannot reshape array")
  else Except.ok ((List.range a).map (fun i => (flat.drop (i * b)).take b))

/-- Row-major reshape of a flat array to shape (a, b, c). -/
def np_reshape3 (flat : List ℚ) (a b c : ℕ) : Except String (List (List (List ℚ))) :=
  if flat.length ≠ a * b * c then Except.error ("ValueError: cannot reshape array")
  else Except.ok ((List.range a).map
    (fun i => (List.range b).map (fun j => (flat.drop ((i * b + j) * c)).take c)))

/-- Elementwise sum of a list of equally long rows (`np.sum(arr, axis=0)`). -/
def elemSum (n : ℕ) (vs : List (List ℚ)) : List ℚ :=
  vs.foldr (fun v acc => List.zipWith (· + ·) v acc) (List.replicate n 0)

/-- The histogram integral `sum(np.diff(edges) * values)`. -/
def binIntegral (edges values : List ℚ) : ℚ :=
  (List.zipWith (· * ·) (np_diff edges) values).sum

/-- Fancy indexing `[xs[ix] for ix in order]`, with an explicit default for
the (unreachable for in-range orders) out-of-bounds case. -/
def take_order {α : Type} (d : α) (order : List ℕ) (xs : List α) : List α :=
  order.map (fun ix => xs.getD ix d)

/-- str.split("_") on the character list of a selector string. -/
def splitUnderscore : List Char → List (List Char)
  | [] => [[]]
  | c :: rest =>
    let r := splitUnderscore rest
    if c = '_' then [] :: r
    else
      match r with
      | [] => [[c]]
      | p :: ps => (c :: p) :: ps

/-- Key lookup for np.argsort: the i-th key (indices produced by argsort are
always in range, the default is never hit). -/
def argkey {α : Type} [Inhabited α] (keys : List α) (i : ℕ) : α := keys.getD i default

/-- Comparison of indices by their keys, the order used by np.argsort. -/
def argRel {α : Type} [LinearOrder α] [Inhabited α] (keys : List α) (i j : ℕ) : Prop :=
  argkey keys i ≤ argkey keys j

instance {α : Type} [LinearOrder α] [Inhabited α] (keys : List α) :
    DecidableRel (argRel keys) :=
  fun i j => inferInstanceAs (Decidable (argkey keys i ≤ argkey keys j))

instance {α : Type} [LinearOrder α] [Inhabited α] (keys : List α) :
    IsTotal ℕ (argRel keys) :=
  ⟨fun i j => le_total (argkey keys i) (argkey keys j)⟩

instance {α : Type} [LinearOrder α] [Inhabited α] (keys : List α) :
    IsTrans ℕ (argRel keys) :=
  ⟨fun _ _ _ h1 h2 => le_trans h1 h2⟩

/-- np.argsort: indices 0..n-1 ordered so that the keys come out ascending
(a stable sort; numpy's default introsort agrees on distinct keys and any
correct argsort satisfies the properties proved below). -/
def np_argsort {α : Type} [LinearOrder α] [Inhabited α] (keys : List α) : List ℕ :=
  List.insertionSort (argRel keys) (List.range keys.length)

/-! ### Python keyword-argument values (for the per-series kwarg fan-out) -/

/-- A Python value as far as the kwarg fan-out logic (plot.py:279-299)
inspects it: numbers, bools, strings, tuples and lists. -/
inductive PyVal where
  | pyint (n : ℤ)
  | pyfloat (q : ℚ)
  | pybool (b : Bool)
  | pystr (s : String)
  | pytuple (xs : List PyVal)
  | pylist (xs : List PyVal)

/-- `isinstance(x, int) or isinstance(x, float)`; in Python `bool` is a
subclass of `int`, so bools count. -/
def isIntOrFloat : PyVal → Bool
  | .pyint _ => true
  | .pyfloat _ => true
  | .pybool _ => true
  | _ => false

/-- The elements a value yields when iterated, for the values
`iterable_not_string` (plot.py:279-280) accepts: tuples and lists.
Strings are iterable in Python but are explicitly excluded there. -/
def pyElems : PyVal → Option (List PyVal)
  | .pytuple xs => some xs
  | .pylist xs => some xs
  | _ => none

/-- The element-wise fan-out loop `for i, kw in enumerate(kwargs[kwarg]):
_chunked_kwargs[i][kwarg] = kw` (plot.py:295-296): series i gets element i;
series beyond the sequence get nothing; a sequence longer than the series
list raises IndexError at index n. -/
def fanout (n : ℕ) (xs : List PyVal) : Except String (List (Option PyVal)) :=
  if n < xs.length then Except.error ("IndexError: list assignment index out of range")
  else Except.ok (xs.map some ++ List.replicate (n - xs.length) none)

/-- Distribution of one keyword argument value over the n series
(plot.py:285-299): an all-numeric tuple goes whole to every series (a color
spec), any other tuple or list is fanned out element-wise, and any
non-iterable (or string) goes whole to every series. -/
def chunk_one (n : ℕ) (v : PyVal) : Except String (List (Option PyVal)) :=
  match v with
  | .pytuple xs =>
    if xs.all isIntOrFloat then Except.ok (List.replicate n (some v))
    else fanout n xs
  | .pylist xs => fanout n xs
  | _ => Except.ok (List.replicate n (some v))

/-- One kwargs dictionary per series. -/
abbrev KwDict : Type := List (String × PyVal)

/-- The whole `_chunked_kwargs` construction loop (plot.py:282-299). -/
def chunk_kwargs (n : ℕ) (kwargs : List (String × PyVal)) :
    Except String (List KwDict) :=
  kwargs.foldlM
    (fun acc kv => do
      let col ← chunk_one n kv.2
      Except.ok (List.zipWith
        (fun (d : KwDict) o =>
          match o with
          | some v => d ++ [(kv.1, v)]
          | none => d)
        acc col))
    (List.replicate n ([] : List (String × PyVal)))

/-! ### 1D histograms and plottables -/

/-- A 1D histogram input, after the duck-typed flow extraction of
plot.py:189-223 has been resolved: values, optional variances, and the
under/overflow content guarded by the axis traits.  (The `traits` branch and
the uproot `values(flow=True)` branch both produce exactly this data.) -/
structure Hist1D where
  values : List ℚ
  variances : Option (List ℚ)
  underflow_trait : Bool
  overflow_trait : Bool
  underflow_value : ℚ
  overflow_value : ℚ
  underflow_variance : ℚ
  overflow_variance : ℚ
deriving DecidableEq

/-- The `underflow` local of plot.py:193-209: 0.0 unless the axis has the
underflow trait. -/
def Hist1D.underflow (h : Hist1D) : ℚ :=
  if h.underflow_trait then h.underflow_value else 0

/-- The `overflow` local of plot.py:193-209. -/
def Hist1D.overflow (h : Hist1D) : ℚ :=
  if h.overflow_trait then h.overflow_value else 0

/-- The `underflowv` local: only set when the histogram has variances. -/
def Hist1D.underflowv (h : Hist1D) : ℚ :=
  if h.underflow_trait ∧ h.variances.isSome then h.underflow_variance else 0

/-- The `overflowv` local. -/
def Hist1D.overflowv (h : Hist1D) : ℚ :=
  if h.overflow_trait ∧ h.variances.isSome then h.overflow_variance else 0

/-- Modelled from the spec: the canonical Plottable value object of the
`utils` module (not under src/) — bin edges, per-bin values, optional
variances, and the explicit two-sided errors installed by
`Plottable.fixed_errors`. -/
structure Plottable where
  values : List ℚ
  edges : List ℚ
  variances : Option (List ℚ)
  fixed_lo : Option (List ℚ)
  fixed_hi : Option (List ℚ)
deriving DecidableEq

instance : Inhabited Plottable := ⟨⟨[], [], none, none, none⟩⟩

/-- The per-histogram flow-policy dispatch of plot.py:225-257: "none" and
"hint" keep the values as they are; "show" prepends/appends a synthetic flow
bin of width `max(0.05*range, mean bin width)` for each strictly positive
flow value; "sum" adds strictly positive flow content to the first/last bin;
any other selector (only None survives the argument check) keeps the values. -/
def set_plottable (flow : Option String) (final_bins : List ℚ) (h : Hist1D) : Plottable :=
  let value := h.values
  let variance := h.variances
  let underflow := h.underflow
  let overflow := h.overflow
  let underflowv := h.underflowv
  let overflowv := h.overflowv
  if flow = some ("none") then
    { values := value, edges := final_bins, variances := variance,
      fixed_lo := none, fixed_hi := none }
  else if flow = some ("hint") then
    { values := value, edges := final_bins, variances := variance,
      fixed_lo := none, fixed_hi := none }
  else if flow = some ("show") then
    let flow_bin_size :=
      max ((5 / 100) * (final_bins.getLastD 0 - final_bins.headD 0))
        (np_mean (np_diff final_bins))
    let fb1 := if 0 < underflow then (final_bins.headD 0 - flow_bin_size) :: final_bins
      else final_bins
    let v1 := if 0 < underflow then underflow :: value else value
    let var1 := if 0 < underflow then variance.map (fun vr => underflowv :: vr)
      else variance
    let fb2 := if 0 < overflow then fb1 ++ [fb1.getLastD 0 + flow_bin_size] else fb1
    let v2 := if 0 < overflow then v1 ++ [overflow] else v1
    let var2 := if 0 < overflow then var1.map (fun vr => vr ++ [overflowv]) else var1
    { values := v2, edges := fb2, variances := var2, fixed_lo := none, fixed_hi := none }
  else if flow = some ("sum") then
    let v1 := if 0 < underflow then List.modifyHead (fun x => x + underflow) value
      else value
    let var1 := if 0 < underflow then
        variance.map (List.modifyHead (fun x => x + underflowv))
      else variance
    let v2 := if 0 < overflow then np_modifyLast (fun x => x + overflow) v1 else v1
    let var2 := if 0 < overflow then var1.map (np_modifyLast (fun x => x + overflowv))
      else var1
    { values := v2, edges := final_bins, variances := var2,
      fixed_lo := none, fixed_hi := none }
  else
    { values := value, edges := final_bins, variances := variance,
      fixed_lo := none, fixed_hi := none }

/-! ### yerr resolution (plot.py:303-343) -/

/-- The shapes a user-supplied yerr array can have. -/
inductive NDArr where
  | d1 (v : List ℚ)
  | d2 (m : List (List ℚ))
  | d3 (t : List (List (List ℚ)))
deriving DecidableEq

/-- The yerr argument: a bool (True requests automatic errors, False
disables them — both leave `_yerr = None`), a plain number, or an array. -/
inductive YErrArg where
  | ybool (b : Bool)
  | ynum (q : ℚ)
  | yarr (a : NDArr)
deriving DecidableEq

/-- The ndim == 2 arm of the yerr broadcast (plot.py:322-332): with one
series a (2, N) array is reshaped and a (1, N) array is tiled; with several
series the (nh, N) array is tiled to (nh, 2, N). -/
def yerr_dispatch2 (nh : ℕ) (m : List (List ℚ)) :
    Except String (List (List (List ℚ))) :=
  let c := (m.headD []).length
  if nh = 1 then
    if m.length = 2 then np_reshape3 m.flatten 1 2 c
    else if m.length = 1 then np_reshape3 (np_tile2 m).flatten 1 2 c
    else Except.error ("yerr format is not understood")
  else np_reshape3 (np_tile2 m).flatten nh 2 c

/-- The full yerr resolution (plot.py:303-339): bools give no explicit
errors; a number is broadcast via `np.ones((nh, nbins)) * yerr` (ndim 2);
a 1d array is tiled to (nh, 2, N); a 3d array is taken as-is. -/
def yerr_resolve (nh nbins : ℕ) (y : YErrArg) :
    Except String (Option (List (List (List ℚ)))) :=
  match y with
  | .ybool _ => Except.ok none
  | .ynum q => do
    let r ← yerr_dispatch2 nh (List.replicate nh (List.replicate nbins q))
    Except.ok (some r)
  | .yarr (.d1 v) => do
    let r ← np_reshape3 (np_tile_flat v (2 * nh)) nh 2 v.length
    Except.ok (some r)
  | .yarr (.d2 m) => do
    let r ← yerr_dispatch2 nh m
    Except.ok (some r)
  | .yarr (.d3 t) => Except.ok (some t)

/-- The assignment loop `for yrs, _plottable in zip(_yerr, plottables):
_plottable.fixed_errors(*yrs)` (plot.py:342-343).  `fixed_errors` is
modelled from the spec: it installs the explicit two-sided error bounds. -/
def yerr_stage (nh nbins : ℕ) (y : Option YErrArg) (ps : List Plottable) :
    Except String (List Plottable) :=
  match y with
  | none => Except.ok ps
  | some arg => do
    let r ← yerr_resolve nh nbins arg
    match r with
    | none => Except.ok ps
    | some arr =>
      Except.ok (List.zipWith
        (fun yrs p =>
          { p with fixed_lo := some (yrs.getD 0 []), fixed_hi := some (yrs.getD 1 []) })
        arr ps)

/-! ### Labels and sorting (plot.py:269-277, 345-365) -/

/-- The label argument: None, a single string, or a list of strings. -/
inductive LabelArg where
  | lnone
  | lstr (s : String)
  | llist (ls : List String)
deriving DecidableEq

/-- The label list construction (plot.py:269-277). -/
def mk_labels (label : LabelArg) (n : ℕ) : List (Option String) :=
  match label with
  | .lnone => List.replicate n none
  | .lstr s => List.replicate n (some s)
  | .llist ls => ls.map some

/-- The sort argument: a selector string or an explicit index array. -/
inductive SortArg where
  | sstr (s : String)
  | slist (ixs : List ℕ)
deriving DecidableEq

/-- The sorting block (plot.py:345-365).  A selector whose part before "_"
is "l"/"label" argsorts the raw label argument (np.argsort of None or of a
plain string raises, since those are 0-d arrays); "y"/"yield" argsorts the
per-series total yields; a trailing "_r" reverses the order; any other
selector string leaves `order` unbound (NameError).  An explicit index list
must have one index per series.  The resulting permutation is applied to the
plottables, the chunked kwargs and the labels alike. -/
def histplot_sort (sort : SortArg) (label : LabelArg) (ps : List Plottable)
    (ck : List KwDict) (lbls : List (Option String)) :
    Except String (List Plottable × List KwDict × List (Option String)) := do
  let order ← (match sort with
    | .sstr s => do
      let parts := splitUnderscore s.toList
      let base ← (if parts.headD [] = ['l'] ∨ parts.headD [] = ("label".toList) then
          (match label with
           | .llist ls => Except.ok (np_argsort ls)
           | _ => Except.error ("AxisError: axis -1 is out of bounds for array of dimension 0"))
        else if parts.headD [] = ['y'] ∨ parts.headD [] = ("yield".toList) then
          Except.ok (np_argsort (ps.map (fun p => p.values.sum)))
        else Except.error ("NameError: name order is not defined"))
      if parts.length = 2 ∧ parts.getD 1 [] = ['r'] then Except.ok base.reverse
      else Except.ok base
    | .slist ixs =>
      if ixs.length ≠ ps.length then
        Except.error ("Sort indexing array is of the wrong size")
      else if ixs.any (fun ix => ps.length ≤ ix) then
        Except.error ("IndexError: list index out of range")
      else Except.ok ixs)
  Except.ok (take_order default order ps, take_order default order ck,
    take_order none order lbls)

/-- The optional sorting stage. -/
def sort_stage (sort : Option SortArg) (label : LabelArg) (ps : List Plottable)
    (ck : List KwDict) (lbls : List (Option String)) :
    Except String (List Plottable × List KwDict × List (Option String)) :=
  match sort with
  | none => Except.ok (ps, ck, lbls)
  | some sa => histplot_sort sa label ps ck lbls

/-! ### Density / bin-width normalization and stacking (plot.py:367-392) -/

/-- Modelled from the spec: `Plottable.flat_scale` (utils module, not under
src/) multiplies every bin value by a scalar. -/
def flat_scale (c : ℚ) (p : Plottable) : Plottable :=
  { p with values := p.values.map (fun v => v * c) }

/-- Modelled from the spec: setting `Plottable.density` rescales the values
so that the sum of value * bin width integrates to 1 over the axis. -/
def density_apply (p : Plottable) : Plottable :=
  flat_scale (1 / binIntegral p.edges p.values) p

/-- Modelled from the spec: `Plottable.binwnorm` divides each bin value by
its bin width (bin-width normalization). -/
def plottable_binwnorm (p : Plottable) : Plottable :=
  { p with values := List.zipWith (fun v w => v / w) p.values (np_diff p.edges) }

/-- The density/binwnorm block (plot.py:369-386): density and binwnorm are
mutually exclusive; stacked density rescales every series by
`1 / sum(np.diff(final_bins) * total)`; unstacked density sets the per-series
density flag; binwnorm flat-scales by the norm and bin-width-normalizes. -/
def apply_density_binwnorm (density : Bool) (binwnorm : Option ℚ) (stack : Bool)
    (final_bins : List ℚ) (ps : List Plottable) : Except String (List Plottable) :=
  if density ∧ binwnorm.isSome then Except.error ("Can only set density or binwnorm.")
  else if density then
    if stack then
      let total := elemSum (np_diff final_bins).length (ps.map Plottable.values)
      let denom := (List.zipWith (· * ·) (np_diff final_bins) total).sum
      Except.ok (ps.map (flat_scale (1 / denom)))
    else Except.ok (ps.map density_apply)
  else
    match binwnorm with
    | some norm => Except.ok (ps.map (fun p => plottable_binwnorm (flat_scale norm p)))
    | none => Except.ok ps

/-- Helper for the spec-modelled stack: running cumulative values. -/
def stack_go (acc : List ℚ) : List Plottable → List Plottable
  | [] => []
  | p :: rest =>
    let nv := if acc.isEmpty then p.values else List.zipWith (· + ·) acc p.values
    { p with values := nv } :: stack_go nv rest

/-- Modelled from the spec: `utils.stack` (not under src/) — cumulative sum
across series, the k-th output carrying the elementwise sum of the first k+1
input series (the cumulative tops; each series is drawn as its increment). -/
def stack_model (ps : List Plottable) : List Plottable := stack_go [] ps

/-! ### The histplot pipeline (plot.py:59-608) -/

/-- The AssertionError text of the histtype check (plot.py:158-160). -/
def histtype_err_message : String := "Select histtype from: fill, step, errorbar, band"

/-- The AssertionError text of the flow check (plot.py:161-166). -/
def flow_err_message : String := "flow must be show, sum, hint, or none"

/-- All arguments of histplot that the embedded pipeline consumes. -/
structure HistplotArgs where
  hists : List Hist1D
  final_bins : List ℚ
  yerr : Option YErrArg
  w2 : Option (List ℚ)
  stack : Bool
  density : Bool
  binwnorm : Option ℚ
  histtype : String
  label : LabelArg
  sort : Option SortArg
  flow : Option String
  kwargs : List (String × PyVal)

/-- What histplot hands back (and how many series were drawn). -/
structure HistplotOutput where
  plottables : List Plottable
  labels : List (Option String)
  chunked : List KwDict
  artists : ℕ

/-- The w2 stage (plot.py:259-264): reshape w2 to (n_series, n_bins) and
overwrite each plottable's variances with its row. -/
def w2_stage (w2 : Option (List ℚ)) (final_bins : List ℚ) (ps : List Plottable) :
    Except String (List Plottable) :=
  match w2 with
  | none => Except.ok ps
  | some w => do
    let rows ← np_reshape2 w ps.length (final_bins.length - 1)
    Except.ok (List.zipWith (fun row p => { p with variances := some row }) rows ps)

/-- The histplot pipeline in source order (plot.py:59-608): argument checks,
flow-policy dispatch per histogram, w2 attachment, the w2/yerr exclusivity
check, labels, kwarg fan-out, yerr resolution, sorting, the
density/binwnorm block, stacking, and finally one drawn artist per series.
All drawing happens after every check, so an error means nothing was drawn. -/
def histplot (a : HistplotArgs) : Except String HistplotOutput :=
  if a.histtype ∉ ["fill", "step", "errorbar", "band"] then
    Except.error histtype_err_message
  else if ¬(a.flow = none ∨ a.flow = some ("show") ∨ a.flow = some ("sum")
      ∨ a.flow = some ("hint") ∨ a.flow = some ("none")) then
    Except.error flow_err_message
  else if a.hists.isEmpty then
    Except.error ("IndexError: list index out of range")
  else
    let plottables := a.hists.map (set_plottable a.flow a.final_bins)
    (w2_stage a.w2 a.final_bins plottables).bind (fun ps2 =>
      if a.w2.isSome ∧ a.yerr.isSome then Except.error ("Can only supply errors or w2")
      else
        let lbls := mk_labels a.label ps2.length
        (chunk_kwargs ps2.length a.kwargs).bind (fun ck =>
          (yerr_stage ps2.length (a.final_bins.length - 1) a.yerr ps2).bind (fun ps3 =>
            (sort_stage a.sort a.label ps3 ck lbls).bind (fun r =>
              (apply_density_binwnorm a.density a.binwnorm a.stack a.final_bins
                  r.1).bind (fun ps4 =>
                let ps5 := if a.stack ∧ 1 < ps4.length then stack_model ps4 else ps4
                Except.ok
                  { plottables := ps5, labels := r.2.2, chunked := r.2.1,
                    artists := ps5.length })))))

/-! ### The hist2dplot flow handling (plot.py:611-928) -/

/-- A 2D histogram with flow content, represented by its full
(nx+2) x (ny+2) value array including the flow bins (one flow row/column on
every side, corners included), exactly the array boost-histogram exposes as
`values(flow=True)`. -/
structure Hist2DFlow where
  flowvals : List (List ℚ)

/-- The values() accessor: the core values, i.e. the interior of the padded
array. -/
def Hist2DFlow.values (h : Hist2DFlow) : List (List ℚ) :=
  ((h.flowvals.drop 1).dropLast).map (fun r => (r.drop 1).dropLast)

/-- Modelled from the spec: `utils.to_padded2d` (not under src/) returns the
histogram's values padded with its flow content: the core values surrounded
by one row/column of flow bins on each side. -/
def to_padded2d (h : Hist2DFlow) : List (List ℚ) := h.flowvals

/-- The check np.all(row == 0). -/
def rowAllZero (r : List ℚ) : Bool := r.all (fun q => decide (q = 0))

/-- First column of a 2d array (`m[:, 0]`). -/
def colHead (m : List (List ℚ)) : List ℚ := m.map (fun r => r.headD 0)

/-- Last column of a 2d array (`m[:, -1]`). -/
def colLast (m : List (List ℚ)) : List ℚ := m.map (fun r => r.getLastD 0)

/-- The slice arr[1:-1]. -/
def interior (l : List ℚ) : List ℚ := (l.drop 1).dropLast

/-- Read m[i][j], with 0 outside the array. -/
def get2d (m : List (List ℚ)) (i j : ℕ) : ℚ := (m.getD i []).getD j 0

/-- Write m[i][j] = q. -/
def set2d (m : List (List ℚ)) (i j : ℕ) (q : ℚ) : List (List ℚ) :=
  m.set i ((m.getD i []).set j q)

/-- The flow="sum" folding of hist2dplot (plot.py:726-744): flow edges are
added to the nearest edge row/column (corners excluded), then the four flow
corners are added to the corner bins.  The corner updates mirror Python's
tuple assignment: every right-hand side is computed from the array state
before any corner is written (relevant only for degenerate 1-row/1-column
grids, where later members of the tuple assignment overwrite earlier ones). -/
def flow2d_sum (h : Hist2DFlow) : List (List ℚ) :=
  let f := h.flowvals
  let H0 := h.values
  let H1 := List.modifyHead (fun r => List.zipWith (· + ·) r (interior (f.headD []))) H0
  let H2 := np_modifyLast
    (fun r => List.zipWith (· + ·) r (interior (f.getLastD []))) H1
  let H3 := List.zipWith (fun c r => List.modifyHead (fun x => x + c) r)
    (interior (colHead f)) H2
  let H4 := List.zipWith (fun c r => np_modifyLast (fun x => x + c) r)
    (interior (colLast f)) H3
  let nrow := H4.length
  let ncol := (H4.headD []).length
  let fr := f.length - 1
  let fc := (f.headD []).length - 1
  let c00 := get2d f 0 0 + get2d H4 0 0
  let c11 := get2d f fr fc + get2d H4 (nrow - 1) (ncol - 1)
  let c01 := get2d f 0 fc + get2d H4 0 (ncol - 1)
  let c10 := get2d f fr 0 + get2d H4 (nrow - 1) 0
  let H5 := set2d H4 0 0 c00
  let H6 := set2d H5 (nrow - 1) (ncol - 1) c11
  let H7 := set2d H6 0 (ncol - 1) c01
  set2d H7 (nrow - 1) 0 c10

/-- What the flow handling of hist2dplot determines: the grid handed to
pcolormesh (before the final transpose, which only swaps plot axes), the two
edge arrays, and the four hint flags consumed by the flow=="show"/"hint"
styling blocks (plot.py:805-896).  The hint flags are only meaningful for
flow="hint"/"show"; in the remaining branches they keep their Python initial
value True but are never read. -/
structure Flow2DResult where
  grid : List (List ℚ)
  xedges : List ℚ
  yedges : List ℚ
  hint_xlo : Bool
  hint_xhi : Bool
  hint_ylo : Bool
  hint_yhi : Bool

/-- The flow dispatch of hist2dplot (plot.py:690-751).  For "hint" and
"show": pad both edge arrays by 5% of their range on each side, take the
padded value array, trim every all-zero outer flow row/column (clearing the
corresponding hint flag), and render the trimmed padded array only under
"show" — under "hint" the rendered grid and edges stay the originals.  For
"sum": fold the flow content into the edge bins.  Any other selector
(including invalid ones — there is no validity check) leaves the histogram
untouched. -/
def hist2d_flow (flow : Option String) (h : Hist2DFlow) (xbins ybins : List ℚ) :
    Flow2DResult :=
  let H := h.values
  if flow = some ("hint") ∨ flow = some ("show") then
    let xwidth := (xbins.getLastD 0 - xbins.headD 0) * (5 / 100)
    let ywidth := (ybins.getLastD 0 - ybins.headD 0) * (5 / 100)
    let pxbins := (xbins.headD 0 - xwidth) :: (xbins ++ [xbins.getLastD 0 + xwidth])
    let pybins := (ybins.headD 0 - ywidth) :: (ybins ++ [ybins.getLastD 0 + ywidth])
    let padded0 := to_padded2d h
    let t1 := rowAllZero (padded0.headD [])
    let padded1 := if t1 then padded0.drop 1 else padded0
    let pxbins1 := if t1 then pxbins.drop 1 else pxbins
    let t2 := rowAllZero (padded1.getLastD [])
    let padded2 := if t2 then padded1.dropLast else padded1
    let pxbins2 := if t2 then pxbins1.dropLast else pxbins1
    let t3 := rowAllZero (colHead padded2)
    let padded3 := if t3 then padded2.map (List.drop 1) else padded2
    let pybins1 := if t3 then pybins.drop 1 else pybins
    let t4 := rowAllZero (colLast padded3)
    let padded4 := if t4 then padded3.map List.dropLast else padded3
    let pybins2 := if t4 then pybins1.dropLast else pybins1
    if flow = some ("show") then
      { grid := padded4, xedges := pxbins2, yedges := pybins2,
        hint_xlo := !t1, hint_xhi := !t2, hint_ylo := !t3, hint_yhi := !t4 }
    else
      { grid := H, xedges := xbins, yedges := ybins,
        hint_xlo := !t1, hint_xhi := !t2, hint_ylo := !t3, hint_yhi := !t4 }
  else if flow = some ("sum") then
    { grid := flow2d_sum h, xedges := xbins, yedges := ybins,
      hint_xlo := true, hint_xhi := true, hint_ylo := true, hint_yhi := true }
  else
    { grid := H, xedges := xbins, yedges := ybins,
      hint_xlo := true, hint_xhi := true, hint_ylo := true, hint_yhi := true }

/-- The hist2dplot entry as far as flow handling is concerned
(plot.py:611-928).  `values_has_flow_arg` says whether the histogram
object's `values` method accepts the `flow` keyword; when it does not and a
flow mode was requested, the function only prints a warning and resets flow
to None (plot.py:692-700).  There is no validity check on the flow selector
anywhere: every call reaches the drawing code, so the result is always
`Except.ok`.  (The colorbar, labels and styling are orthogonal to the claims
and omitted.) -/
def hist2dplot (flow : Option String) (values_has_flow_arg : Bool) (h : Hist2DFlow)
    (xbins ybins : List ℚ) : Except String Flow2DResult :=
  let flow1 := if ¬values_has_flow_arg ∧ flow ≠ none then none else flow
  Except.ok (hist2d_flow flow1 h xbins ybins)

/-! ### The layout-adjustment loops (plot.py:1013-1108) -/

/-- The RuntimeError text of yscale_legend (plot.py:1052-1054). -/
def legend_fit_err_message : String := "Could not fit legend in 10 iterations"

/-- The RuntimeError text of yscale_anchored_text (plot.py:1101-1103). -/
def text_fit_err_message : String := "Could not fit AnchoredText in 10 iterations"

/-- The common while-loop of yscale_legend / yscale_anchored_text
(plot.py:1041-1058 and 1090-1107), abstracted over the overlap measurement
`ov` (a function of the current upper y-limit: rescaling only changes the
y-limit) and the scale factor.  `remaining` counts down from 11: the Python
counter `max_scales` starts at 0 and the loop aborts in the body iteration
entered with `max_scales > 10`, i.e. the 12th body execution; each body
execution first multiplies the upper y-limit by the factor, so at most 12
rescalings happen.  At the cap: RuntimeError unless `soft_fail`, in which
case the loop breaks and the (best-effort) axes are returned. -/
def yscale_fit_loop (msg : String) (ov : ℚ → ℚ) (factor otol : ℚ) (soft : Bool) :
    ℕ → ℚ → Except String ℚ
  | 0, ylim =>
    if ov ylim ≤ otol then Except.ok ylim
    else if soft then Except.ok (ylim * factor) else Except.error msg
  | r + 1, ylim =>
    if ov ylim ≤ otol then Except.ok ylim
    else yscale_fit_loop msg ov factor otol soft r (ylim * factor)

/-- yscale_legend (plot.py:1013-1059) as the instantiated loop. -/
def yscale_legend (ov : ℚ → ℚ) (factor otol : ℚ) (soft : Bool) (ylim : ℚ) :
    Except String ℚ :=
  yscale_fit_loop legend_fit_err_message ov factor otol soft 11 ylim

/-- yscale_anchored_text (plot.py:1062-1108) as the instantiated loop. -/
def yscale_anchored_text (ov : ℚ → ℚ) (factor otol : ℚ) (soft : Bool) (ylim : ℚ) :
    Except String ℚ :=
  yscale_fit_loop text_fit_err_message ov factor otol soft 11 ylim

/-- The scale factor `10 ** (1.05) if ax.get_yscale() == "log" else 1.05`
(plot.py:1039 and 1088), as an exact real. -/
noncomputable def scale_factor (isLog : Bool) : ℝ :=
  if isLog then (10 : ℝ) ^ ((105 : ℝ) / 100) else (105 : ℝ) / 100

/-! ### Small observers used to state concrete facts -/

/-- A histogram identical to `h` except that its underflow content is zero. -/
def zero_underflow (h : Hist1D) : Hist1D :=
  { h with underflow_value := 0, underflow_variance := 0 }

/-- A histogram identical to `h` except that its overflow content is zero. -/
def zero_overflow (h : Hist1D) : Hist1D :=
  { h with overflow_value := 0, overflow_variance := 0 }

/-- Did the kwarg fan-out hand every series an element?  (False also when it
raised.) -/
def all_series_assigned (r : Except String (List (Option PyVal))) : Bool :=
  match r with
  | .ok cols => cols.all (fun o => o.isSome)
  | .error _ => false

/-- The x-low hint flag of a hist2dplot result (false also on error, which
never happens). -/
def res_hint_xlo (e : Except String Flow2DResult) : Bool :=
  match e with
  | .ok r => r.hint_xlo
  | .error _ => false

/-- The rendered grid of a hist2dplot result. -/
def res_grid (e : Except String Flow2DResult) : List (List ℚ) :=
  match e with
  | .ok r => r.grid
  | .error _ => []

/-! ## Theorems -/

/-! ### List lemmas about the edge-bin updates -/

theorem np_modifyLast_length {α : Type} (f : α → α) :
    ∀ l : List α, (np_modifyLast f l).length = l.length
  | [] => rfl
  | [_] => rfl
  | x :: y :: xs => by
    simp only [np_modifyLast, List.length_cons]
    exact congrArg (· + 1) (np_modifyLast_length f (y :: xs))

theorem getLastD_irrel {α : Type} :
    ∀ (l : List α), l ≠ [] → ∀ d₁ d₂ : α, l.getLastD d₁ = l.getLastD d₂
  | [_], _, _, _ => rfl
  | _ :: _ :: _, _, _, _ => by simp only [List.getLastD_cons]

theorem np_modifyLast_getLastD (f : ℚ → ℚ) :
    ∀ (l : List ℚ), l ≠ [] → ∀ d, (np_modifyLast f l).getLastD d = f (l.getLastD d)
  | [x], _, d => rfl
  | x :: y :: xs, _, d => by
    have ih := np_modifyLast_getLastD f (y :: xs) (by simp) x
    simpa only [np_modifyLast, List.getLastD_cons] using ih

theorem np_modifyLast_getD (f : ℚ → ℚ) :
    ∀ (l : List ℚ) (i : ℕ), i + 1 < l.length → (np_modifyLast f l).getD i 0 = l.getD i 0
  | [], _, h => by simp at h
  | [x], i, h => by simp at h
  | x :: y :: xs, 0, _ => rfl
  | x :: y :: xs, i + 1, h => by
    have ih := np_modifyLast_getD f (y :: xs) i
      (by simp only [List.length_cons] at h ⊢; omega)
    simpa only [np_modifyLast, List.getD_cons_succ] using ih

/-- The combined first/last update the flow="sum" branch performs, on any
value list with at least two bins. -/
theorem flow_sum_core (u o : ℚ) :
    ∀ (l : List ℚ), 2 ≤ l.length →
      (np_modifyLast (fun x => x + o) (List.modifyHead (fun x => x + u) l)).headD 0
          = l.headD 0 + u ∧
      (np_modifyLast (fun x => x + o) (List.modifyHead (fun x => x + u) l)).getLastD 0
          = l.getLastD 0 + o ∧
      (∀ i, 0 < i → i + 1 < l.length →
        (np_modifyLast (fun x => x + o) (List.modifyHead (fun x => x + u) l)).getD i 0
            = l.getD i 0) ∧
      (np_modifyLast (fun x => x + o) (List.modifyHead (fun x => x + u) l)).length
          = l.length
  | a :: b :: t, _ => by
    have hne : (b :: t) ≠ ([] : List ℚ) := by simp
    have hstep : np_modifyLast (fun x => x + o) (List.modifyHead (fun x => x + u) (a :: b :: t))
        = (a + u) :: np_modifyLast (fun x => x + o) (b :: t) := rfl
    refine ⟨by rw [hstep]; rfl, ?_, ?_, ?_⟩
    · rw [hstep, List.getLastD_cons, List.getLastD_cons,
        np_modifyLast_getLastD _ _ hne, getLastD_irrel (b :: t) hne (a + u) a]
    · intro i hi hlt
      match i, hi with
      | j + 1, _ =>
        rw [hstep, List.getD_cons_succ, List.getD_cons_succ]
        exact np_modifyLast_getD _ (b :: t) j
          (by simp only [List.length_cons] at hlt ⊢; omega)
    · rw [hstep, List.length_cons, List.length_cons, List.length_cons,
        np_modifyLast_length, List.length_cons]

/-! ### Claim C1 -/

/-- Claim C1, amended: for a 1D histogram with underflow content 2 and
overflow content 3 and **at least two bins**, the flow="sum" policy
(plot.py:246-255) produces a plottable whose first bin value is increased by
exactly 2, whose last bin value is increased by exactly 3, and whose
interior bin values and bin count are unchanged.  (As stated the claim also
covers single-bin histograms, where the one bin receives both additions; see
the counterexample.) -/
theorem C1_flow_sum_adds_to_edge_bins (h : Hist1D) (fb : List ℚ)
    (hu : h.underflow_trait = true) (ho : h.overflow_trait = true)
    (hu2 : h.underflow_value = 2) (ho3 : h.overflow_value = 3)
    (hlen : 2 ≤ h.values.length) :
    (set_plottable (some ("sum")) fb h).values.headD 0 = h.values.headD 0 + 2 ∧
    (set_plottable (some ("sum")) fb h).values.getLastD 0 = h.values.getLastD 0 + 3 ∧
    (∀ i, 0 < i → i + 1 < h.values.length →
      (set_plottable (some ("sum")) fb h).values.getD i 0 = h.values.getD i 0) ∧
    (set_plottable (some ("sum")) fb h).values.length = h.values.length := by
  have hv : (set_plottable (some ("sum")) fb h).values
      = np_modifyLast (fun x => x + 3) (List.modifyHead (fun x => x + 2) h.values) := by
    simp [set_plottable, Hist1D.underflow, Hist1D.overflow, hu, ho, hu2, ho3]
  rw [hv]
  exact flow_sum_core 2 3 h.values hlen

/-- Counterexample to claim C1 as stated: on a single-bin histogram with
underflow 2 and overflow 3, flow="sum" adds both flow values to the same
bin, so the first bin grows by 5, not by exactly 2. -/
theorem C1_single_bin_counterexample :
    (set_plottable (some ("sum")) [0, 1]
        (⟨[5], none, true, true, 2, 3, 0, 0⟩ : Hist1D)).values.headD 0
      ≠ (⟨[5], none, true, true, 2, 3, 0, 0⟩ : Hist1D).values.headD 0 + 2 := by
  simp [set_plottable, Hist1D.underflow, Hist1D.overflow, np_modifyLast,
    List.modifyHead]

/-- Witness for C1 on a concrete three-bin histogram. -/
theorem C1_witness :
    (set_plottable (some ("sum")) [0, 1, 2, 3]
        (⟨[5, 7, 9], none, true, true, 2, 3, 0, 0⟩ : Hist1D)).values.headD 0
      = (⟨[5, 7, 9], none, true, true, 2, 3, 0, 0⟩ : Hist1D).values.headD 0 + 2 ∧
    (set_plottable (some ("sum")) [0, 1, 2, 3]
        (⟨[5, 7, 9], none, true, true, 2, 3, 0, 0⟩ : Hist1D)).values.getLastD 0
      = (⟨[5, 7, 9], none, true, true, 2, 3, 0, 0⟩ : Hist1D).values.getLastD 0 + 3 :=
  ⟨(C1_flow_sum_adds_to_edge_bins _ [0, 1, 2, 3] rfl rfl rfl rfl (by decide)).1,
   (C1_flow_sum_adds_to_edge_bins _ [0, 1, 2, 3] rfl rfl rfl rfl (by decide)).2.1⟩

/-! ### Claim C10 -/

/-- Claim C10: flow content enters only when strictly positive
(plot.py:226-257).  With underflow content ≤ 0 the flow="sum" and
flow="show" outputs coincide with those of the same histogram whose
underflow is zero; symmetrically for overflow; and when both are ≤ 0 the
values (and, for "show", the edges) are exactly the flow-free ones. -/
theorem C10_nonpositive_flow_ignored (h : Hist1D) (fb : List ℚ) :
    (h.underflow ≤ 0 →
      set_plottable (some ("sum")) fb h
          = set_plottable (some ("sum")) fb (zero_underflow h) ∧
      set_plottable (some ("show")) fb h
          = set_plottable (some ("show")) fb (zero_underflow h)) ∧
    (h.overflow ≤ 0 →
      set_plottable (some ("sum")) fb h
          = set_plottable (some ("sum")) fb (zero_overflow h) ∧
      set_plottable (some ("show")) fb h
          = set_plottable (some ("show")) fb (zero_overflow h)) ∧
    (h.underflow ≤ 0 → h.overflow ≤ 0 →
      (set_plottable (some ("sum")) fb h).values = h.values ∧
      (set_plottable (some ("show")) fb h).values = h.values ∧
      (set_plottable (some ("show")) fb h).edges = fb) := by
  refine ⟨fun hu => ?_, fun ho => ?_, fun hu ho => ?_⟩
  · have h1 : ¬(0 < h.underflow) := not_lt.mpr hu
    have hA : (zero_underflow h).underflow = 0 := by
      simp [zero_underflow, Hist1D.underflow]
    have hB : (zero_underflow h).overflow = h.overflow := rfl
    have hC : (zero_underflow h).overflowv = h.overflowv := rfl
    have hD : (zero_underflow h).values = h.values := rfl
    have hE : (zero_underflow h).variances = h.variances := rfl
    constructor <;>
      simp [set_plottable, h1, hA, hB, hC, hD, hE]
  · have h1 : ¬(0 < h.overflow) := not_lt.mpr ho
    have hA : (zero_overflow h).overflow = 0 := by
      simp [zero_overflow, Hist1D.overflow]
    have hB : (zero_overflow h).underflow = h.underflow := rfl
    have hC : (zero_overflow h).underflowv = h.underflowv := rfl
    have hD : (zero_overflow h).values = h.values := rfl
    have hE : (zero_overflow h).variances = h.variances := rfl
    constructor <;>
      simp [set_plottable, h1, hA, hB, hC, hD, hE]
  · have h1 : ¬(0 < h.underflow) := not_lt.mpr hu
    have h2 : ¬(0 < h.overflow) := not_lt.mpr ho
    refine ⟨?_, ?_, ?_⟩ <;> simp [set_plottable, h1, h2]

/-- Witness for C10 on a histogram with negative under/overflow content. -/
theorem C10_witness :
    set_plottable (some ("sum")) [0, 1]
        (⟨[5], none, true, true, -1, -2, 0, 0⟩ : Hist1D)
      = set_plottable (some ("sum")) [0, 1]
        (zero_underflow (⟨[5], none, true, true, -1, -2, 0, 0⟩ : Hist1D)) ∧
    (set_plottable (some ("show")) [0, 1]
        (⟨[5], none, true, true, -1, -2, 0, 0⟩ : Hist1D)).values = [5] :=
  ⟨((C10_nonpositive_flow_ignored _ [0, 1]).1 (by decide)).1,
   (((C10_nonpositive_flow_ignored _ [0, 1]).2.2 (by decide) (by decide)).2).1⟩

/-! ### Claim C3 -/

/-- Claim C3: a scalar (non-bool numeric) yerr with 3 series and 5 bins
resolves (plot.py:304-343) to the (3, 2, 5)-shaped structure whose lower and
upper bound for every series and bin both equal the scalar. -/
theorem C3_scalar_yerr_broadcast (s : ℚ) :
    yerr_resolve 3 5 (YErrArg.ynum s)
      = Except.ok (some
          [[[s, s, s, s, s], [s, s, s, s, s]],
           [[s, s, s, s, s], [s, s, s, s, s]],
           [[s, s, s, s, s], [s, s, s, s, s]]]) := rfl

/-! ### Claim C8 -/

/-- Claim C8, amended: in the kwarg fan-out (plot.py:279-299) an all-numeric
tuple goes whole to every series and a scalar (non-iterable or string) value
goes whole to every series, as claimed; but a non-string iterable is fanned
out one element per series only when it has at least one element per series:
a shorter sequence leaves the remaining series without the keyword, and a
longer one raises IndexError. -/
theorem C8_kwargs_fanout (n : ℕ) (v : PyVal) (xs : List PyVal) :
    (v = PyVal.pytuple xs → xs.all isIntOrFloat = true →
      chunk_one n v = Except.ok (List.replicate n (some v))) ∧
    (v = PyVal.pytuple xs → xs.all isIntOrFloat = false → xs.length = n →
      chunk_one n v = Except.ok (xs.map some)) ∧
    (v = PyVal.pylist xs → xs.length = n →
      chunk_one n v = Except.ok (xs.map some)) ∧
    (v = PyVal.pylist xs → xs.length < n →
      chunk_one n v = Except.ok (xs.map some ++ List.replicate (n - xs.length) none)) ∧
    (v = PyVal.pylist xs → n < xs.length →
      chunk_one n v = Except.error ("IndexError: list assignment index out of range")) ∧
    (pyElems v = none → chunk_one n v = Except.ok (List.replicate n (some v))) := by
  refine ⟨?_, ?_, ?_, ?_, ?_, ?_⟩
  · rintro rfl hall
    simp [chunk_one, hall]
  · rintro rfl hall hlen
    simp [chunk_one, hall, fanout, hlen]
  · rintro rfl hlen
    simp [chunk_one, fanout, hlen]
  · rintro rfl hlt
    simp [chunk_one, fanout, Nat.not_lt.mpr (Nat.le_of_lt hlt)]
  · rintro rfl hlt
    simp [chunk_one, fanout, hlt]
  · intro hnone
    cases v <;> simp_all [chunk_one, pyElems]

/-- Counterexample to claim C8 as stated: a 2-element list kwarg over 3
series is not fanned out one element per series — the third series is left
without the keyword. -/
theorem C8_short_list_counterexample :
    all_series_assigned (chunk_one 3 (PyVal.pylist [PyVal.pyint 1, PyVal.pyint 2]))
      = false := rfl

/-- Witness for C8 at concrete kwarg values. -/
theorem C8_witness :
    chunk_one 2 (PyVal.pytuple [PyVal.pyint 1, PyVal.pyint 2])
      = Except.ok [some (PyVal.pytuple [PyVal.pyint 1, PyVal.pyint 2]),
          some (PyVal.pytuple [PyVal.pyint 1, PyVal.pyint 2])] ∧
    chunk_one 2 (PyVal.pylist [PyVal.pystr "a", PyVal.pystr "b"])
      = Except.ok [some (PyVal.pystr "a"), some (PyVal.pystr "b")] ∧
    chunk_one 2 (PyVal.pystr "c")
      = Except.ok [some (PyVal.pystr "c"), some (PyVal.pystr "c")] ∧
    chunk_one 1 (PyVal.pylist [PyVal.pyint 1, PyVal.pyint 2])
      = Except.error ("IndexError: list assignment index out of range") :=
  ⟨(C8_kwargs_fanout 2 _ [PyVal.pyint 1, PyVal.pyint 2]).1 rfl rfl,
   (C8_kwargs_fanout 2 _ [PyVal.pystr "a", PyVal.pystr "b"]).2.2.1 rfl rfl,
   (C8_kwargs_fanout 2 (PyVal.pystr "c") []).2.2.2.2.2 rfl,
   (C8_kwargs_fanout 1 _ [PyVal.pyint 1, PyVal.pyint 2]).2.2.2.2.1 rfl (by decide)⟩

/-! ### Claim C4 -/

/-- Claim C4, amended: histplot rejects an invalid histtype or flow selector
immediately with the descriptive assert message, before anything is drawn
(the checks at plot.py:157-166 precede every drawing call); hist2dplot,
however, performs no validation of its flow selector — an unrecognized
selector is silently treated as no flow handling and the call succeeds,
rendering the plain histogram. -/
theorem C4_selector_validation (a : HistplotArgs) (s : String) (h2 : Hist2DFlow)
    (xb yb : List ℚ) :
    (a.histtype ∉ ["fill", "step", "errorbar", "band"] →
      histplot a = Except.error histtype_err_message) ∧
    (a.histtype ∈ ["fill", "step", "errorbar", "band"] → a.flow = some s →
      s ∉ ["show", "sum", "hint", "none"] →
      histplot a = Except.error flow_err_message) ∧
    (s ∉ ["hint", "show", "sum"] →
      hist2dplot (some s) true h2 xb yb
        = Except.ok
            { grid := h2.values, xedges := xb, yedges := yb,
              hint_xlo := true, hint_xhi := true, hint_ylo := true, hint_yhi := true }) := by
  refine ⟨?_, ?_, ?_⟩
  · intro hbad
    simp [histplot, hbad]
  · intro hgood hflow hbad
    have hs1 : ¬(s = "show") := fun hh => hbad (by simp [hh])
    have hs2 : ¬(s = "sum") := fun hh => hbad (by simp [hh])
    have hs3 : ¬(s = "hint") := fun hh => hbad (by simp [hh])
    have hs4 : ¬(s = "none") := fun hh => hbad (by simp [hh])
    simp [histplot, hgood, hflow, hs1, hs2, hs3, hs4]
  · intro hbad
    have hs1 : ¬(s = "hint") := fun hh => hbad (by simp [hh])
    have hs2 : ¬(s = "show") := fun hh => hbad (by simp [hh])
    have hs3 : ¬(s = "sum") := fun hh => hbad (by simp [hh])
    simp [hist2dplot, hist2d_flow, hs1, hs2, hs3]

/-- Counterexample to claim C4 as stated: hist2dplot with the invalid flow
selector "banana" succeeds instead of being rejected. -/
theorem C4_hist2dplot_counterexample :
    (hist2dplot (some ("banana")) true ⟨[[0, 0, 0], [4, 1, 5], [6, 2, 7]]⟩
        [0, 1] [0, 1]).isOk = true := rfl

/-- Witness for C4: an invalid histtype and an invalid flow are rejected by
histplot, while hist2dplot accepts an invalid flow selector. -/
theorem C4_witness :
    histplot
        ⟨[], [0, 1], none, none, false, false, none, "banana", LabelArg.lnone,
          none, none, []⟩
      = Except.error histtype_err_message ∧
    histplot
        ⟨[], [0, 1], none, none, false, false, none, "step", LabelArg.lnone,
          none, some ("banana"), []⟩
      = Except.error flow_err_message ∧
    hist2dplot (some ("banana")) true ⟨[[1]]⟩ [0, 1] [0, 1]
      = Except.ok
          { grid := Hist2DFlow.values ⟨[[1]]⟩, xedges := [0, 1], yedges := [0, 1],
            hint_xlo := true, hint_xhi := true, hint_ylo := true, hint_yhi := true } :=
  ⟨(C4_selector_validation _ "x" ⟨[[1]]⟩ [] []).1 (by decide),
   (C4_selector_validation _ "banana" ⟨[[1]]⟩ [] []).2.1 (by decide) rfl (by decide),
   (C4_selector_validation
      ⟨[], [0, 1], none, none, false, false, none, "step", LabelArg.lnone,
        none, none, []⟩
      "banana" ⟨[[1]]⟩ [0, 1] [0, 1]).2.2 (by decide)⟩

/-! ### Claim C5 -/

theorem exists_error_bind {α β : Type} (e : Except String α) (f : α → Except String β)
    (h : ∀ x, ∃ msg, f x = Except.error msg) : ∃ msg, e.bind f = Except.error msg := by
  cases e with
  | error m => exact ⟨m, rfl⟩
  | ok x => simpa [Except.bind] using h x

/-- Claim C5: a histplot call that sets both density and binwnorm, or both
w2 and yerr, raises (plot.py:266-267 and 369-370) — the pipeline returns an
error and no series is drawn (artists exist only in the ok result). -/
theorem C5_mutually_exclusive_options (a : HistplotArgs)
    (hconf : (a.density = true ∧ a.binwnorm.isSome = true)
      ∨ (a.w2.isSome = true ∧ a.yerr.isSome = true)) :
    ∃ msg, histplot a = Except.error msg := by
  simp only [histplot]
  split
  · exact ⟨_, rfl⟩
  · split
    · exact ⟨_, rfl⟩
    · split
      · exact ⟨_, rfl⟩
      · refine exists_error_bind _ _ (fun ps2 => ?_)
        split
        · exact ⟨_, rfl⟩
        · rename_i hnot
          rcases hconf with ⟨hd, hb⟩ | ⟨hw, hy⟩
          · refine exists_error_bind _ _ (fun ck => ?_)
            refine exists_error_bind _ _ (fun ps3 => ?_)
            refine exists_error_bind _ _ (fun r => ?_)
            have he : apply_density_binwnorm a.density a.binwnorm a.stack a.final_bins r.1
                = Except.error ("Can only set density or binwnorm.") := by
              simp [apply_density_binwnorm, hd, hb]
            rw [he]
            exact ⟨_, rfl⟩
          · exact absurd ⟨hw, hy⟩ hnot

/-- Witness for C5 at concrete conflicting calls. -/
theorem C5_witness :
    (∃ msg, histplot
        ⟨[⟨[1], none, false, false, 0, 0, 0, 0⟩], [0, 1], none, none, false,
          true, some 1, "step", LabelArg.lnone, none, none, []⟩
      = Except.error msg) ∧
    (∃ msg, histplot
        ⟨[⟨[1], none, false, false, 0, 0, 0, 0⟩], [0, 1], some (YErrArg.ybool true),
          some [1], false, false, none, "step", LabelArg.lnone, none, none, []⟩
      = Except.error msg) :=
  ⟨C5_mutually_exclusive_options _ (Or.inl ⟨rfl, rfl⟩),
   C5_mutually_exclusive_options _ (Or.inr ⟨rfl, rfl⟩)⟩

/-! ### Claim C7 -/

/-- The mapped keys of an argsort come out ascending. -/
theorem sorted_map_argkey {α : Type} [LinearOrder α] [Inhabited α] (keys : List α) :
    List.Sorted (· ≤ ·) ((np_argsort keys).map (argkey keys)) := by
  have hs : List.Sorted (argRel keys) (np_argsort keys) :=
    List.sorted_insertionSort (argRel keys) (List.range keys.length)
  exact List.Pairwise.map (argkey keys) (fun _ _ h => h) hs

/-- Claim C7: sorting with "label"/"yield" (plot.py:345-365) reorders the
series ascending by label or by total yield, the "_r" suffix yields exactly
the reversed order, and the very same permutation is applied to the
plottables, the per-series kwargs and the labels; the order is a permutation
of 0..n-1. -/
theorem C7_sort_by_label_or_yield (ls : List String) (ps : List Plottable)
    (ck : List KwDict) (lbls : List (Option String)) :
    (histplot_sort (SortArg.sstr ("label")) (LabelArg.llist ls) ps ck lbls
      = Except.ok (take_order default (np_argsort ls) ps,
          take_order default (np_argsort ls) ck,
          take_order none (np_argsort ls) lbls)) ∧
    (histplot_sort (SortArg.sstr ("label_r")) (LabelArg.llist ls) ps ck lbls
      = Except.ok (take_order default (np_argsort ls).reverse ps,
          take_order default (np_argsort ls).reverse ck,
          take_order none (np_argsort ls).reverse lbls)) ∧
    (histplot_sort (SortArg.sstr ("yield")) (LabelArg.llist ls) ps ck lbls
      = Except.ok (take_order default (np_argsort (ps.map (fun p => p.values.sum))) ps,
          take_order default (np_argsort (ps.map (fun p => p.values.sum))) ck,
          take_order none (np_argsort (ps.map (fun p => p.values.sum))) lbls)) ∧
    (histplot_sort (SortArg.sstr ("yield_r")) (LabelArg.llist ls) ps ck lbls
      = Except.ok
          (take_order default (np_argsort (ps.map (fun p => p.values.sum))).reverse ps,
          take_order default (np_argsort (ps.map (fun p => p.values.sum))).reverse ck,
          take_order none (np_argsort (ps.map (fun p => p.values.sum))).reverse lbls)) ∧
    (np_argsort ls).Perm (List.range ls.length) ∧
    (np_argsort (ps.map (fun p => p.values.sum))).Perm (List.range ps.length) ∧
    List.Sorted (· ≤ ·) ((np_argsort ls).map (argkey ls)) ∧
    List.Sorted (· ≤ ·) ((np_argsort (ps.map (fun p => p.values.sum))).map
      (argkey (ps.map (fun p => p.values.sum)))) := by
  refine ⟨rfl, rfl, rfl, rfl, ?_, ?_, sorted_map_argkey ls, sorted_map_argkey _⟩
  · simpa [np_argsort] using
      List.perm_insertionSort (argRel ls) (List.range ls.length)
  · simpa [np_argsort, List.length_map] using
      List.perm_insertionSort (argRel (ps.map (fun p => p.values.sum)))
        (List.range (ps.map (fun p => p.values.sum)).length)

/-! ### Claim C6 -/

theorem sum_zip_mul_replicate_zero (w : List ℚ) (n : ℕ) :
    (List.zipWith (· * ·) w (List.replicate n 0)).sum = 0 := by
  induction w generalizing n with
  | nil => simp
  | cons x w ih =>
    cases n with
    | zero => simp
    | succ m => simp [List.replicate_succ, ih]

theorem sum_zip_mul_add (w : List ℚ) :
    ∀ (v a : List ℚ), w.length ≤ v.length → w.length ≤ a.length →
      (List.zipWith (· * ·) w (List.zipWith (· + ·) v a)).sum
        = (List.zipWith (· * ·) w v).sum + (List.zipWith (· * ·) w a).sum := by
  induction w with
  | nil => simp
  | cons x w ih =>
    intro v a hv ha
    cases v with
    | nil => simp at hv
    | cons y v =>
      cases a with
      | nil => simp at ha
      | cons z a =>
        simp only [List.zipWith_cons_cons, List.sum_cons]
        rw [ih v a (by simp only [List.length_cons] at hv; omega)
          (by simp only [List.length_cons] at ha; omega)]
        ring

theorem elemSum_length (n : ℕ) (vs : List (List ℚ)) (h : ∀ v ∈ vs, v.length = n) :
    (elemSum n vs).length = n := by
  induction vs with
  | nil => simp [elemSum]
  | cons v vs ih =>
    have hv := h v (by simp)
    have ih2 := ih (fun u hu => h u (by simp [hu]))
    simp only [elemSum, List.foldr_cons] at ih2 ⊢
    simp [List.length_zipWith, hv, ih2]

theorem sum_map_integral_eq_integral_elemSum (w : List ℚ) (vs : List (List ℚ))
    (h : ∀ v ∈ vs, v.length = w.length) :
    (List.zipWith (· * ·) w (elemSum w.length vs)).sum
      = (vs.map (fun v => (List.zipWith (· * ·) w v).sum)).sum := by
  induction vs with
  | nil => simp [elemSum, sum_zip_mul_replicate_zero]
  | cons v vs ih =>
    have hv : v.length = w.length := h v (by simp)
    have hlen : (elemSum w.length vs).length = w.length :=
      elemSum_length _ _ (fun u hu => h u (by simp [hu]))
    have hstep : elemSum w.length (v :: vs)
        = List.zipWith (· + ·) v (elemSum w.length vs) := rfl
    rw [hstep, sum_zip_mul_add w v _ (le_of_eq hv.symm) (le_of_eq hlen.symm),
      ih (fun u hu => h u (by simp [hu]))]
    simp

theorem zip_mul_map_mul_right (w : List ℚ) :
    ∀ (v : List ℚ) (c : ℚ),
      (List.zipWith (· * ·) w (v.map (fun x => x * c))).sum
        = c * (List.zipWith (· * ·) w v).sum := by
  induction w with
  | nil => simp
  | cons x w ih =>
    intro v c
    cases v with
    | nil => simp
    | cons y v =>
      simp only [List.map_cons, List.zipWith_cons_cons, List.sum_cons, ih]
      ring

/-- Claim C6: with density=True the drawn values integrate to one
(plot.py:369-386).  Stacked: every series is rescaled by
`1 / sum(np.diff(final_bins) * total)` and the total integral over all
series and bins is exactly 1 (provided the denominator is nonzero — with a
zero total integral the Python code divides by zero).  Unstacked: each
series gets the density flag, normalizing its own integral to 1.
`Plottable.density`/`flat_scale` live in the utils module (not under src/)
and are modelled from the spec. -/
theorem C6_density_normalization (fb : List ℚ) (ps : List Plottable)
    (hlen : ∀ p ∈ ps, p.values.length = (np_diff fb).length) :
    (binIntegral fb (elemSum (np_diff fb).length (ps.map Plottable.values)) ≠ 0 →
      apply_density_binwnorm true none true fb ps
        = Except.ok (ps.map (flat_scale
            (1 / binIntegral fb (elemSum (np_diff fb).length (ps.map Plottable.values))))) ∧
      ((ps.map (flat_scale
          (1 / binIntegral fb (elemSum (np_diff fb).length (ps.map Plottable.values))))).map
            (fun q => binIntegral fb q.values)).sum = 1) ∧
    (apply_density_binwnorm true none false fb ps = Except.ok (ps.map density_apply) ∧
      ∀ p ∈ ps, binIntegral p.edges p.values ≠ 0 →
        binIntegral p.edges (density_apply p).values = 1) := by
  constructor
  · intro hne
    refine ⟨rfl, ?_⟩
    have h1 : ∀ p : Plottable,
        (flat_scale (1 / binIntegral fb
            (elemSum (np_diff fb).length (ps.map Plottable.values))) p).values
          = p.values.map (fun x => x * (1 / binIntegral fb
              (elemSum (np_diff fb).length (ps.map Plottable.values)))) := fun _ => rfl
    rw [List.map_map]
    have h2 : ((fun q => binIntegral fb q.values) ∘
          flat_scale (1 / binIntegral fb
            (elemSum (np_diff fb).length (ps.map Plottable.values))))
        = fun p => (1 / binIntegral fb
            (elemSum (np_diff fb).length (ps.map Plottable.values)))
          * binIntegral fb p.values := by
      funext p
      simp only [Function.comp_apply, h1, binIntegral]
      exact zip_mul_map_mul_right (np_diff fb) p.values _
    rw [h2, List.sum_map_mul_left]
    have h3 : (List.map (fun p => binIntegral fb p.values) ps).sum
        = binIntegral fb (elemSum (np_diff fb).length (ps.map Plottable.values)) := by
      have := sum_map_integral_eq_integral_elemSum (np_diff fb) (ps.map Plottable.values)
        (by intro v hv
            obtain ⟨p, hp, rfl⟩ := List.mem_map.mp hv
            exact hlen p hp)
      simp only [binIntegral, List.map_map] at this ⊢
      exact this.symm
    rw [h3, one_div, inv_mul_cancel₀ hne]
  · refine ⟨rfl, ?_⟩
    intro p _ hne
    have h1 : (density_apply p).values
        = p.values.map (fun x => x * (1 / binIntegral p.edges p.values)) := rfl
    rw [h1]
    show (List.zipWith (· * ·) (np_diff p.edges)
      (p.values.map (fun x => x * (1 / binIntegral p.edges p.values)))).sum = 1
    rw [zip_mul_map_mul_right]
    show (1 / binIntegral p.edges p.values) * binIntegral p.edges p.values = 1
    rw [one_div, inv_mul_cancel₀ hne]

/-- Witness for C6 on two concrete two-bin series. -/
theorem C6_witness :
    apply_density_binwnorm true none true [0, 1, 2]
        [(⟨[1, 1], [0, 1, 2], none, none, none⟩ : Plottable),
         (⟨[1, 3], [0, 1, 2], none, none, none⟩ : Plottable)]
      = Except.ok
          ([(⟨[1, 1], [0, 1, 2], none, none, none⟩ : Plottable),
            (⟨[1, 3], [0, 1, 2], none, none, none⟩ : Plottable)].map
            (flat_scale (1 / binIntegral [0, 1, 2]
              (elemSum (np_diff [0, 1, 2]).length
                ([(⟨[1, 1], [0, 1, 2], none, none, none⟩ : Plottable),
                  (⟨[1, 3], [0, 1, 2], none, none, none⟩ : Plottable)].map
                  Plottable.values))))) ∧
    (([(⟨[1, 1], [0, 1, 2], none, none, none⟩ : Plottable),
       (⟨[1, 3], [0, 1, 2], none, none, none⟩ : Plottable)].map
        (flat_scale (1 / binIntegral [0, 1, 2]
          (elemSum (np_diff [0, 1, 2]).length
            ([(⟨[1, 1], [0, 1, 2], none, none, none⟩ : Plottable),
              (⟨[1, 3], [0, 1, 2], none, none, none⟩ : Plottable)].map
              Plottable.values))))).map
        (fun q => binIntegral [0, 1, 2] q.values)).sum = 1 :=
  C6_density_normalization [0, 1, 2] _
    (by intro p hp
        simp only [List.mem_cons, List.not_mem_nil, or_false] at hp
        rcases hp with rfl | rfl <;> rfl)
    |>.1 (by norm_num [binIntegral, elemSum, np_diff, List.zipWith_cons_cons,
      List.replicate_succ, List.replicate_zero, List.sum_cons])

/-! ### Claim C2 -/

/-- Claim C2, amended: for a 2D histogram whose first (underflow) flow row
is all zero while the remaining outer flow rows/columns are not,
hist2dplot's flow handling (plot.py:701-725) trims that row from the padded
working array and does **not** flag a hint at that edge (hints are flagged
only at edges whose flow row/column is nonzero); under flow="hint" the
rendered grid and edges stay the original unpadded ones, while under
flow="show" the rendered grid is the padded array minus the all-zero row —
i.e. it is widened by exactly one 5%-of-range padded bin row/column at each
side with nonzero flow content, carrying the actual flow values. -/
theorem C2_flow_hint_show_trim (h : Hist2DFlow) (xb yb : List ℚ)
    (h1 : rowAllZero (h.flowvals.headD []) = true)
    (h2 : rowAllZero ((h.flowvals.drop 1).getLastD []) = false)
    (h3 : rowAllZero (colHead (h.flowvals.drop 1)) = false)
    (h4 : rowAllZero (colLast (h.flowvals.drop 1)) = false) :
    hist2dplot (some ("hint")) true h xb yb
      = Except.ok
          { grid := h.values, xedges := xb, yedges := yb,
            hint_xlo := false, hint_xhi := true, hint_ylo := true, hint_yhi := true } ∧
    hist2dplot (some ("show")) true h xb yb
      = Except.ok
          { grid := h.flowvals.drop 1,
            xedges := xb ++ [xb.getLastD 0 + (xb.getLastD 0 - xb.headD 0) * (5 / 100)],
            yedges := (yb.headD 0 - (yb.getLastD 0 - yb.headD 0) * (5 / 100))
              :: (yb ++ [yb.getLastD 0 + (yb.getLastD 0 - yb.headD 0) * (5 / 100)]),
            hint_xlo := false, hint_xhi := true, hint_ylo := true, hint_yhi := true } := by
  simp only [List.headD_eq_head?_getD, List.getLastD_eq_getLast?,
    List.drop_one] at h1 h2 h3 h4
  constructor <;>
    simp [hist2dplot, hist2d_flow, to_padded2d, h1, h2, h3, h4]

/-- Counterexample to claim C2 as stated: with an all-zero first flow row,
flow="hint" does not flag a boundary hint at that edge (the flag is cleared)
and the rendered grid is the plain core histogram, not a trimmed padded
grid. -/
theorem C2_hint_counterexample :
    res_hint_xlo (hist2dplot (some ("hint")) true ⟨[[0, 0, 0], [4, 1, 5], [6, 2, 7]]⟩
        [0, 20] [0, 40]) = false ∧
    res_grid (hist2dplot (some ("hint")) true ⟨[[0, 0, 0], [4, 1, 5], [6, 2, 7]]⟩
        [0, 20] [0, 40]) = [[1]] := by
  constructor <;> rfl

/-- Witness for C2 on a concrete 3x3 padded histogram (core 1x1). -/
theorem C2_witness :
    hist2dplot (some ("show")) true ⟨[[0, 0, 0], [4, 1, 5], [6, 2, 7]]⟩ [0, 20] [0, 40]
      = Except.ok
          { grid := ([[0, 0, 0], [4, 1, 5], [6, 2, 7]] : List (List ℚ)).drop 1,
            xedges := [0, 20] ++ [([0, 20] : List ℚ).getLastD 0
              + (([0, 20] : List ℚ).getLastD 0 - ([0, 20] : List ℚ).headD 0) * (5 / 100)],
            yedges := (([0, 40] : List ℚ).headD 0
                - (([0, 40] : List ℚ).getLastD 0 - ([0, 40] : List ℚ).headD 0) * (5 / 100))
              :: ([0, 40] ++ [([0, 40] : List ℚ).getLastD 0
                + (([0, 40] : List ℚ).getLastD 0 - ([0, 40] : List ℚ).headD 0) * (5 / 100)]),
            hint_xlo := false, hint_xhi := true, hint_ylo := true, hint_yhi := true } :=
  (C2_flow_hint_show_trim ⟨[[0, 0, 0], [4, 1, 5], [6, 2, 7]]⟩ [0, 20] [0, 40]
    (by decide) (by decide) (by decide) (by decide)).2

/-! ### Claim C9 -/

/-- Every run of the fit loop either succeeds with at most r+1 rescalings or
hard-fails with soft_fail off. -/
theorem yscale_fit_loop_cases (msg : String) (ov : ℚ → ℚ) (f otol : ℚ) (soft : Bool) :
    ∀ (r : ℕ) (y : ℚ),
      (∃ k, k ≤ r + 1 ∧ yscale_fit_loop msg ov f otol soft r y = Except.ok (y * f ^ k)) ∨
      (soft = false ∧ yscale_fit_loop msg ov f otol soft r y = Except.error msg) := by
  intro r
  induction r with
  | zero =>
    intro y
    by_cases hc : ov y ≤ otol
    · exact Or.inl ⟨0, by omega, by simp [yscale_fit_loop, hc]⟩
    · cases soft with
      | true => exact Or.inl ⟨1, by omega, by simp [yscale_fit_loop, hc, pow_one]⟩
      | false => exact Or.inr ⟨rfl, by simp [yscale_fit_loop, hc]⟩
  | succ n ih =>
    intro y
    by_cases hc : ov y ≤ otol
    · exact Or.inl ⟨0, by omega, by simp [yscale_fit_loop, hc]⟩
    · rcases ih (y * f) with ⟨k, hk, heq⟩ | ⟨hs, heq⟩
      · refine Or.inl ⟨k + 1, by omega, ?_⟩
        have hstep : yscale_fit_loop msg ov f otol soft (n + 1) y
            = yscale_fit_loop msg ov f otol soft n (y * f) := by
          simp [yscale_fit_loop, hc]
        rw [hstep, heq, pow_succ]
        ring_nf
      · exact Or.inr ⟨hs, by simp [yscale_fit_loop, hc, heq]⟩

/-- With soft_fail the loop always returns axes (never raises). -/
theorem yscale_fit_loop_soft_ok (msg : String) (ov : ℚ → ℚ) (f otol : ℚ)
    (r : ℕ) (y : ℚ) :
    ∃ k, k ≤ r + 1 ∧ yscale_fit_loop msg ov f otol true r y = Except.ok (y * f ^ k) := by
  rcases yscale_fit_loop_cases msg ov f otol true r y with h | ⟨hs, _⟩
  · exact h
  · exact absurd hs (by simp)

/-- If the overlap stays above tolerance at every reachable y-limit, the
loop with soft_fail off raises after exhausting its budget. -/
theorem yscale_fit_loop_hard_fail (msg : String) (ov : ℚ → ℚ) (f otol : ℚ) :
    ∀ (r : ℕ) (y : ℚ), (∀ k, k ≤ r → otol < ov (y * f ^ k)) →
      yscale_fit_loop msg ov f otol false r y = Except.error msg := by
  intro r
  induction r with
  | zero =>
    intro y h
    have h0 := h 0 (le_refl 0)
    rw [pow_zero, mul_one] at h0
    simp [yscale_fit_loop, not_le.mpr h0]
  | succ n ih =>
    intro y h
    have h0 := h 0 (by omega)
    rw [pow_zero, mul_one] at h0
    have hrec : ∀ k, k ≤ n → otol < ov ((y * f) * f ^ k) := by
      intro k hk
      have := h (k + 1) (by omega)
      rw [show (y * f) * f ^ k = y * f ^ (k + 1) from by rw [pow_succ]; ring]
      exact this
    simp [yscale_fit_loop, not_le.mpr h0, ih (y * f) hrec]

/-- Claim C9: yscale_legend and yscale_anchored_text perform at most 12
rescalings (a fixed bound: the counter cap `max_scales > 10` is reached in
the 12th loop body), each multiplying the upper y-limit by the constant
factor; when the overlap still exceeds the tolerance at the cap they raise
the RuntimeError with soft_fail=False and return the best-effort axes with
soft_fail=True; and the scale factor is larger under log scale
(10 ** 1.05 > 1.05). -/
theorem C9_layout_loop_bounded (ov : ℚ → ℚ) (f otol y : ℚ) (soft : Bool) :
    ((∃ k, k ≤ 12 ∧ yscale_legend ov f otol soft y = Except.ok (y * f ^ k)) ∨
      (soft = false ∧ yscale_legend ov f otol soft y
        = Except.error legend_fit_err_message)) ∧
    (soft = true →
      ∃ k, k ≤ 12 ∧ yscale_legend ov f otol soft y = Except.ok (y * f ^ k)) ∧
    ((∀ k, k ≤ 11 → otol < ov (y * f ^ k)) →
      yscale_legend ov f otol false y = Except.error legend_fit_err_message) ∧
    ((∃ k, k ≤ 12 ∧ yscale_anchored_text ov f otol soft y = Except.ok (y * f ^ k)) ∨
      (soft = false ∧ yscale_anchored_text ov f otol soft y
        = Except.error text_fit_err_message)) ∧
    (soft = true →
      ∃ k, k ≤ 12 ∧ yscale_anchored_text ov f otol soft y = Except.ok (y * f ^ k)) ∧
    ((∀ k, k ≤ 11 → otol < ov (y * f ^ k)) →
      yscale_anchored_text ov f otol false y = Except.error text_fit_err_message) ∧
    scale_factor false < scale_factor true := by
  refine ⟨?_, ?_, ?_, ?_, ?_, ?_, ?_⟩
  · exact yscale_fit_loop_cases legend_fit_err_message ov f otol soft 11 y
  · rintro rfl
    exact yscale_fit_loop_soft_ok legend_fit_err_message ov f otol 11 y
  · exact yscale_fit_loop_hard_fail legend_fit_err_message ov f otol 11 y
  · exact yscale_fit_loop_cases text_fit_err_message ov f otol soft 11 y
  · rintro rfl
    exact yscale_fit_loop_soft_ok text_fit_err_message ov f otol 11 y
  · exact yscale_fit_loop_hard_fail text_fit_err_message ov f otol 11 y
  · have h1 : (10 : ℝ) ^ ((1 : ℝ)) ≤ (10 : ℝ) ^ ((105 : ℝ) / 100) :=
      Real.rpow_le_rpow_of_exponent_le (by norm_num) (by norm_num)
    rw [Real.rpow_one] at h1
    simp only [scale_factor, if_true, if_false, Bool.false_eq_true, ite_false, ite_true]
    linarith

/-- Witness for C9: a constant overlap of 1 with tolerance 0 can never be
fixed — the hard-failing and soft-failing behaviours at concrete inputs. -/
theorem C9_witness :
    yscale_legend (fun _ => 1) 2 0 false 1 = Except.error legend_fit_err_message ∧
    yscale_anchored_text (fun _ => 1) 2 0 false 1 = Except.error text_fit_err_message ∧
    (∃ k, k ≤ 12 ∧ yscale_legend (fun _ => 1) 2 0 true 1 = Except.ok (1 * 2 ^ k)) :=
  ⟨(C9_layout_loop_bounded (fun _ => 1) 2 0 1 false).2.2.1
    (fun _ _ => by norm_num),
   (C9_layout_loop_bounded (fun _ => 1) 2 0 1 false).2.2.2.2.2.1
    (fun _ _ => by norm_num),
   (C9_layout_loop_bounded (fun _ => 1) 2 0 1 true).2.1 rfl⟩

end Mplhep
